import Mathlib

/-!
Verification development for the netresearch front end.

The definitions below are a shallow embedding of the repository
TypeScript sources:

* `src/services/api.ts` — data model, the mock status endpoint
  `getAgentStatus` (its time-based step progression), and `mockGraphData`.
* `src/components/ReasoningConsole.tsx` — the polling console: auto-expand
  logic, manual toggling, interval/timeout lifecycle.  The asynchronous
  behaviour (interval ticks, in-flight fetches, the one-second grace
  `setTimeout`, unmount cleanup) is modelled as a small-step transition
  system over explicit events.
* `src/components/GraphVisualization.tsx` — node click / drag handlers.
* `src/pages/Index.tsx` — the top-level page state, `handleReset` and the
  `startAgentRun` argument derivation of `handleStartDiscovery`.

JavaScript numbers are modelled as `Rat` where fractional values occur and
as `Nat` where the source only ever holds non-negative integers.  JS
string-or-null fields are `Option String`; JS truthiness of strings
(empty string is falsy) is modelled explicitly at each use site.
-/

namespace NetResearch

/-- Step status union `"in_progress" | "done" | "pending"` from `api.ts`. -/
inductive StepStatus
  | in_progress
  | done
  | pending
deriving DecidableEq, Repr

/-- Step type union from `api.ts`. -/
inductive StepType
  | intent
  | filters
  | search
  | extraction
  | relationships
  | graph
deriving DecidableEq, Repr

/-- Run status union `"running" | "completed" | "failed"` from `api.ts`. -/
inductive RunStatus
  | running
  | completed
  | failed
deriving DecidableEq, Repr

/-- Interface `Contact` from `api.ts`. -/
structure Contact where
  email : Option String := none
  website : Option String := none
deriving DecidableEq, Repr

/-- Interface `Paper` from `api.ts`. -/
structure Paper where
  title : String
  link : Option String := none
  abstract : Option String := none
  publication_year : Option Nat := none
  topic : Option String := none
deriving DecidableEq, Repr

/-- Interface `BasicProfessor` from `api.ts`. -/
structure BasicProfessor where
  name : String
  institution : Option String
  description : Option String := none
deriving DecidableEq, Repr

/-- Interface `GraphNode` from `api.ts`. -/
structure GraphNode where
  id : String
  name : String
  type : String
  institution : Option String := none
  description : String
  contacts : Contact
  works_count : Option Nat := none
  cited_by_count : Option Nat := none
  h_index : Option Nat := none
  link_orcid : Option String := none
  papers : Option (List Paper) := none
  color : Option String := none
  level : Option Nat := none
deriving DecidableEq, Repr

/-- Interface `GraphLink` from `api.ts`; `distance` is normalized to [0,1]. -/
structure GraphLink where
  source : String
  target : String
  label : Option String := none
  distance : Option Rat := none
deriving DecidableEq, Repr

/-- Interface `GraphData` from `api.ts`. -/
structure GraphData where
  nodes : List GraphNode
  links : List GraphLink
deriving DecidableEq, Repr

/-- A generic source entry of `StepLog.sources` from `api.ts`. -/
structure SourceItem where
  title : String
  url : String
  type : String
deriving DecidableEq, Repr

/-- Interface `StepLog` from `api.ts`.  The `timestamp` of the mock data is the
module-load time (`new Date().toISOString()`); no claim depends on its
value, so it is carried as an uninterpreted string. -/
structure StepLog where
  step_id : String
  step_type : StepType
  message : String
  status : StepStatus
  timestamp : String
  details : Option (List (String × String)) := none
  filters : Option (List (String × List String)) := none
  papers : Option (List Paper) := none
  professors : Option (List BasicProfessor) := none
  sources : Option (List SourceItem) := none
deriving DecidableEq, Repr

/-- Interface `AgentStatusResponse` from `api.ts`. -/
structure AgentStatusResponse where
  run_id : String
  status : RunStatus
  progress : Nat
  steps : List StepLog
  graph_data : Option GraphData := none
deriving DecidableEq, Repr

/-- Constant `mockGraphData` from `api.ts`, transcribed verbatim. -/
def mockGraphData : GraphData :=
  { nodes := [
      { id := "user", name := "user", type := "person",
        description := "The central user node.", contacts := {},
        color := some "#e0f2f1", level := some 0 },
      { id := "n1", name := "Prof. Sarah Connor", type := "professor",
        institution := some "Cyberdyne Systems",
        description := "Leading researcher in Neural Networks.",
        contacts := { email := some "sarah.connor@cyberdyne.ai",
                      website := some "https://scholar.google.com/sarah_connor" },
        works_count := some 42, cited_by_count := some 1337, h_index := some 25,
        papers := some [
          { title := "Neural Networks for Time Travel",
            publication_year := some 2029,
            link := some "https://arxiv.org/abs/time-travel",
            topic := some "Temporal Mechanics",
            abstract := some "This paper explores the theoretical possibility of using advanced neural networks to calculate temporal displacement vectors. We propose a novel architecture capable of predicting and compensating for the chaotic nature of time travel, ensuring safe arrival at the target destination." },
          { title := "twinsnvfs",
            publication_year := some 2029,
            link := some "https://arxiv.org/abs/time-travel",
            topic := some "Quantum Computing",
            abstract := some "A study on the effects of quantum entanglement on twin paradox scenarios in non-volatile file systems." }],
        color := some "#14b8a6", level := some 1 },
      { id := "n2", name := "Cyberdyne Systems", type := "laboratory",
        description := "Advanced AI research laboratory.",
        contacts := { email := some "contact@cyberdyne.ai",
                      website := some "https://cyberdyne.ai" },
        color := some "#0ea5e9", level := some 2 },
      { id := "n3", name := "Skynet Architecture", type := "laboratory",
        description := "Seminal paper on distributed autonomous defense networks.",
        contacts := {}, color := some "#06b6d4", level := some 2 },
      { id := "n4", name := "T-800 Prototype", type := "laboratory",
        description := "Experimental humanoid robotics platform.",
        contacts := {}, color := some "#22d3ee", level := some 3 },
      { id := "n5", name := "Tech Noir Lab", type := "laboratory",
        description := "Research into night-time urban surveillance.",
        contacts := {}, color := some "#38bdf8", level := some 1 },
      { id := "n6", name := "Dr. Miles Dyson", type := "professor",
        institution := some "Cyberdyne Systems",
        description := "Director of Special Projects.",
        contacts := { email := some "miles@cyberdyne.ai" },
        works_count := some 15, cited_by_count := some 500, h_index := some 12,
        color := some "#0ea5e9", level := some 2 },
      { id := "n7", name := "Project 2501", type := "laboratory",
        description := "Top secret government project.",
        contacts := {}, color := some "#f43f5e", level := some 3 },
      { id := "n8", name := "Major Motoko", type := "professor",
        institution := some "Section 9",
        description := "Field commander.",
        contacts := {}, color := some "#14b8a6", level := some 3 },
      { id := "n9", name := "Puppet Master", type := "professor",
        description := "Elusive hacker entity.",
        contacts := {}, color := some "#0f172a", level := some 4 },
      { id := "n10", name := "Section 9", type := "laboratory",
        description := "Public Security Section 9.",
        contacts := {}, color := some "#e0f2f1", level := some 2 }],
    links := [
      { source := "user", target := "n1",
        label := some "The user is interested in the research of Prof. Sarah Connor.",
        distance := some 0.2 },
      { source := "n1", target := "n2",
        label := some "Prof. Sarah Connor works at Cyberdyne Systems as a leading researcher.",
        distance := some 0.5 },
      { source := "n1", target := "n3",
        label := some "Prof. Sarah Connor authored the seminal paper on Skynet Architecture.",
        distance := some 0.3 },
      { source := "n2", target := "n4",
        label := some "Cyberdyne Systems developed the T-800 Prototype.",
        distance := some 0.8 },
      { source := "n3", target := "n4",
        label := some "The Skynet Architecture paper describes the design of the T-800 Prototype.",
        distance := some 0.4 },
      { source := "n5", target := "n1",
        label := some "Tech Noir Lab collaborates with Prof. Sarah Connor on surveillance research.",
        distance := some 0.6 },
      { source := "n2", target := "n6",
        label := some "Dr. Miles Dyson is the Director at Cyberdyne Systems.",
        distance := some 0.3 },
      { source := "n6", target := "n4",
        label := some "Dr. Miles Dyson oversees the T-800 Prototype development.",
        distance := some 0.4 },
      { source := "n1", target := "n10",
        label := some "Prof. Sarah Connor consults for Section 9.",
        distance := some 0.7 },
      { source := "n10", target := "n8",
        label := some "Major Motoko leads the field operations for Section 9.",
        distance := some 0.3 },
      { source := "n8", target := "n7",
        label := some "Major Motoko is investigating Project 2501.",
        distance := some 0.5 },
      { source := "n7", target := "n9",
        label := some "Project 2501 is linked to the Puppet Master entity.",
        distance := some 0.2 },
      { source := "n9", target := "n4",
        label := some "The Puppet Master attempted to hack the T-800 Prototype.",
        distance := some 0.9 }] }

/-- The module-load timestamp stamped on every mock step
(`new Date().toISOString()` in `api.ts`); its value is irrelevant to all
claims. -/
def mockTimestamp : String := ""

/-- Constant `baseSteps` from `api.ts`: the six mock steps, all `pending`. -/
def baseSteps : List StepLog :=
  [ { step_id := "1", step_type := .intent,
      message := "Analyzing user intent...", status := .pending,
      timestamp := mockTimestamp,
      details := some [("Confidence", "0.98"), ("Intent", "Research Discovery")] },
    { step_id := "2", step_type := .filters,
      message := "Applying search filters...", status := .pending,
      timestamp := mockTimestamp,
      filters := some [
        ("Topics", ["Artificial Intelligence", "Neural Networks", "Robotics"]),
        ("Year Range", ["2020", "2030"]),
        ("Region", ["Global"])] },
    { step_id := "3", step_type := .search,
      message := "Searching for relevant papers...", status := .pending,
      timestamp := mockTimestamp,
      papers := some [
        { title := "Neural Networks for Time Travel", publication_year := some 2029,
          link := some "https://arxiv.org/abs/time-travel", topic := some "Temporal Mechanics" },
        { title := "Skynet Architecture: A Distributed Approach", publication_year := some 2024,
          link := some "https://arxiv.org/abs/skynet", topic := some "Distributed Systems" },
        { title := "Ethical Implications of Autonomous Defense", publication_year := some 2025,
          link := some "https://arxiv.org/abs/ethics-ai", topic := some "AI Ethics" }] },
    { step_id := "4", step_type := .extraction,
      message := "Extracting key researchers...", status := .pending,
      timestamp := mockTimestamp,
      professors := some [
        { name := "Prof. Sarah Connor", institution := some "Cyberdyne Systems",
          description := some "Expert in temporal mechanics and neural networks." },
        { name := "Dr. Miles Dyson", institution := some "Cyberdyne Systems",
          description := some "Director of Special Projects." },
        { name := "Major Motoko", institution := some "Section 9",
          description := some "Specialist in cyber-warfare." }] },
    { step_id := "5", step_type := .relationships,
      message := "Analyzing collaboration networks...", status := .pending,
      timestamp := mockTimestamp,
      details := some [("Nodes Identified", "12"), ("Connections Found", "24")] },
    { step_id := "6", step_type := .graph,
      message := "Finalizing graph visualization...", status := .pending,
      timestamp := mockTimestamp } ]

/-- Function `getAgentStatus` from `api.ts`, as a pure function of the run id and of
`elapsed = Date.now() - mockRuns[runId].startTime` in milliseconds.  The
per-run `startTime` bookkeeping and the 300 ms response `setTimeout` carry
no data and are dropped; every branch is transcribed verbatim, including
the hardcoded `progress` values. -/
def getAgentStatus (runId : String) (elapsed : Nat) : AgentStatusResponse :=
  if elapsed < 2000 then
    -- Step 1 in progress
    { run_id := runId, status := .running, progress := 10,
      steps := baseSteps.map fun s =>
        if s.step_id = "1" then { s with status := .in_progress } else s }
  else if elapsed < 3000 then
    -- Step 1 done, Step 2 done (fast), Step 3 in progress
    { run_id := runId, status := .running, progress := 30,
      steps := baseSteps.map fun s =>
        if s.step_id = "1" ∨ s.step_id = "2" then { s with status := .done }
        else if s.step_id = "3" then { s with status := .in_progress } else s }
  else if elapsed < 5000 then
    -- Step 3 done, Step 4 in progress
    { run_id := runId, status := .running, progress := 50,
      steps := baseSteps.map fun s =>
        if s.step_id = "1" ∨ s.step_id = "2" ∨ s.step_id = "3" then { s with status := .done }
        else if s.step_id = "4" then { s with status := .in_progress } else s }
  else if elapsed < 7000 then
    -- Step 4 done, Step 5 in progress
    { run_id := runId, status := .running, progress := 70,
      steps := baseSteps.map fun s =>
        if s.step_id = "1" ∨ s.step_id = "2" ∨ s.step_id = "3" ∨ s.step_id = "4" then
          { s with status := .done }
        else if s.step_id = "5" then { s with status := .in_progress } else s }
  else if elapsed < 9000 then
    -- Step 5 done, Step 6 in progress
    { run_id := runId, status := .running, progress := 90,
      steps := baseSteps.map fun s =>
        if s.step_id = "1" ∨ s.step_id = "2" ∨ s.step_id = "3" ∨ s.step_id = "4" ∨ s.step_id = "5" then
          { s with status := .done }
        else if s.step_id = "6" then { s with status := .in_progress } else s }
  else
    -- Complete
    { run_id := runId, status := .completed, progress := 100,
      steps := baseSteps.map fun s => { s with status := .done },
      graph_data := some mockGraphData }

/-- Number of steps whose status is `done`. -/
def countDone (steps : List StepLog) : Nat :=
  (steps.filter fun s => s.status = .done).length

/-- Number of steps whose status is `in_progress`. -/
def countInProgress (steps : List StepLog) : Nat :=
  (steps.filter fun s => s.status = .in_progress).length

/-- Modelled from the spec (refinement comparison only): the progress
formula of §4.1, "computed as done-steps/total-steps rounded to nearest
integer", scaled to 0–100.  Rounding half up. -/
def specProgress (done total : Nat) : Nat :=
  (done * 100 * 2 + total) / (total * 2)

/-! ## ReasoningConsole: expansion state and poll handler

From `src/components/ReasoningConsole.tsx`.  The mutable
pieces — `steps`, `expandedSteps` (a JS `Set`), the refs
`lastActiveStepId` and `isAutoExpanded` — form `ConsoleState`. -/

/-- View state and refs of the ReasoningConsole. -/
structure ConsoleState where
  steps : List StepLog
  expandedSteps : Finset String
  lastActiveStepId : Option String
  isAutoExpanded : Bool
deriving DecidableEq

/-- The body of `poll` acting on the console state, lines 30–46 of
`ReasoningConsole.tsx`: `setSteps(response.steps)` followed by the
auto-expand logic.  `find` is the first step with status `in_progress`. -/
def applyPollSteps (c : ConsoleState) (steps : List StepLog) : ConsoleState :=
  let c1 : ConsoleState := { c with steps := steps }
  match steps.find? (fun s => s.status = .in_progress) with
  | some activeStep =>
      if some activeStep.step_id ≠ c1.lastActiveStepId then
        { c1 with lastActiveStepId := some activeStep.step_id,
                  isAutoExpanded := true,
                  expandedSteps := {activeStep.step_id} }
      else c1
  | none =>
      if c1.isAutoExpanded then
        { c1 with isAutoExpanded := false, expandedSteps := ∅ }
      else c1

/-- Handler `toggleExpand` from `ReasoningConsole.tsx` lines 78–90: clear the auto
flag, then toggle membership of the id in the expanded set. -/
def toggleExpand (c : ConsoleState) (stepId : String) : ConsoleState :=
  { c with
      isAutoExpanded := false,
      expandedSteps :=
        if stepId ∈ c.expandedSteps then c.expandedSteps.erase stepId
        else insert stepId c.expandedSteps }

/-- The `setInterval(poll, 1000)` cadence, in milliseconds. -/
def pollIntervalMs : Nat := 1000

/-- The grace delay of the completion `setTimeout`, in milliseconds. -/
def graceDelayMs : Nat := 1000

/-! ## ReasoningConsole: asynchronous lifecycle

The concurrency of the component is modelled as a transition system.  One
`SysState` holds the console state plus the scheduler-visible resources:
whether the `setInterval` handle is still active, how many `getAgentStatus`
fetches are in flight, which grace `setTimeout`s are scheduled (each
carrying the payload its `onComplete` will deliver), the deliveries made so
far, and whether the effect cleanup has run.  Events are the callbacks the
JS event loop can run; `enabledB` states when each can occur. -/

/-- Payload of one `onComplete(graph_data, steps)` delivery. -/
structure Delivery where
  graph : GraphData
  steps : List StepLog
deriving DecidableEq

/-- System state of one mounted `ReasoningConsole`. -/
structure SysState where
  console : ConsoleState
  /-- The `setInterval` handle has not been cleared. -/
  intervalActive : Bool
  /-- Number of `getAgentStatus` fetches started and not yet settled. -/
  inFlight : Nat
  /-- Scheduled grace `setTimeout`s, oldest first. -/
  graceTimers : List Delivery
  /-- All `onComplete` invocations so far, oldest first. -/
  deliveries : List Delivery
  /-- The effect cleanup (unmount) has run. -/
  cleanedUp : Bool
deriving DecidableEq

/-- Events the event loop can run against a mounted console. -/
inductive Event
  /-- The interval fires: `poll()` runs and starts a fetch. -/
  | tick
  /-- An in-flight fetch resolves with `r`; the rest of `poll` runs. -/
  | resolve (r : AgentStatusResponse)
  /-- An in-flight fetch rejects; the `catch` logs and swallows it. -/
  | reject
  /-- A scheduled grace `setTimeout` fires and calls `onComplete`. -/
  | fireGrace
  /-- The user clicks the header of a done step: `toggleExpand(stepId)`. -/
  | toggle (stepId : String)
  /-- The effect cleanup runs: `clearInterval(pollingInterval.current)`. -/
  | cleanup
deriving DecidableEq

/-- Effect of the remainder of `poll` once its fetch resolved with `r`
(lines 30–54): update the console, and on `completed` with graph data
present clear the interval and schedule the grace `setTimeout`. -/
def handleResolve (st : SysState) (r : AgentStatusResponse) : SysState :=
  let st1 := { st with inFlight := st.inFlight - 1,
                       console := applyPollSteps st.console r.steps }
  match r.status, r.graph_data with
  | .completed, some g =>
      { st1 with intervalActive := false,
                 graceTimers := st1.graceTimers ++ [⟨g, r.steps⟩] }
  | _, _ => st1

/-- One transition of the console lifecycle. -/
def stepEvent (st : SysState) : Event → SysState
  | .tick => { st with inFlight := st.inFlight + 1 }
  | .resolve r => handleResolve st r
  | .reject => { st with inFlight := st.inFlight - 1 }
  | .fireGrace =>
      match st.graceTimers with
      | [] => st
      | d :: rest => { st with graceTimers := rest, deliveries := st.deliveries ++ [d] }
  | .toggle stepId => { st with console := toggleExpand st.console stepId }
  | .cleanup => { st with intervalActive := false, cleanedUp := true }

/-- When an event can be scheduled.  `clearInterval` stops future ticks
only; in-flight fetches still settle and scheduled `setTimeout`s still
fire after cleanup, exactly as in the source (no cancellation token, no
timeout cancellation in the cleanup). -/
def enabledB (st : SysState) : Event → Bool
  | .tick => st.intervalActive
  | .resolve _ => decide (0 < st.inFlight)
  | .reject => decide (0 < st.inFlight)
  | .fireGrace => decide (st.graceTimers ≠ [])
  | .toggle _ => !st.cleanedUp
  | .cleanup => true

/-- Run a sequence of events. -/
def run (st : SysState) (tr : List Event) : SysState :=
  tr.foldl stepEvent st

/-- A trace is valid when each event is enabled when it runs. -/
def validTrace (st : SysState) : List Event → Bool
  | [] => true
  | e :: rest => enabledB st e && validTrace (stepEvent st e) rest

/-- State right after mount: empty console, interval just installed, and
the fetch of the initial `poll()` call in flight. -/
def initState : SysState :=
  { console := { steps := [], expandedSteps := ∅,
                 lastActiveStepId := none, isAutoExpanded := false },
    intervalActive := true, inFlight := 1,
    graceTimers := [], deliveries := [], cleanedUp := false }

/-- Number of resolved responses in a trace carrying `completed` status
with graph data present. -/
def countCompleted : List Event → Nat
  | [] => 0
  | .resolve r :: rest =>
      (if r.status = .completed ∧ r.graph_data.isSome then 1 else 0) + countCompleted rest
  | _ :: rest => countCompleted rest

/-! ## ReasoningConsole: institution rendering

The professor cards (lines 230–239 of `ReasoningConsole.tsx`) compute
`institutionName` defensively: at runtime `prof.institution` may be
null/undefined, a plain string, or an object `{id, name}`. -/

/-- Runtime shapes of the `institution` field.  A missing `name` on the
object form is modelled by the empty string: both are falsy in the
guard `prof.institution?.name` with the "Unknown" fallback. -/
inductive InstitutionVal
  | null
  | str (s : String)
  | obj (id : String) (name : String)
deriving DecidableEq, Repr

/-- Computation `institutionName` from `ReasoningConsole.tsx`:
the conditional chain over `prof.institution`: a truthy string passes
through; a truthy non-string takes its `name` field, falling back to
"Unknown" when that is falsy; a falsy institution renders as null.
JS truthiness: `null` and the empty string are falsy; objects are always
truthy.  `none` is the rendered `null`. -/
def institutionName : InstitutionVal → Option String
  | .null => none
  | .str s => if s = "" then none else some s
  | .obj _ name => some (if name = "" then "Unknown" else name)

/-! ## GraphVisualization: click and drag handlers

From `src/components/GraphVisualization.tsx`.  Node coordinates are the
mutable force-layout `x/y/z` (and the pin fields `fx/fy/fz`), modelled
over `Rat`.  The camera transition of the non-anchor branch divides by
`Math.hypot(x, y, z)`; `hypot3` is passed as a parameter since square
roots leave `Rat` (its value is irrelevant to every claim). -/

/-- A force-graph runtime node: the `GraphNode` payload fields the
handlers read, plus the simulation coordinates. -/
structure SimNode where
  id : String
  name : String
  x : Rat
  y : Rat
  z : Rat
  fx : Option Rat := none
  fy : Option Rat := none
  fz : Option Rat := none
deriving DecidableEq, Repr

/-- The viewer state touched by `handleNodeClick`: the selected node, the
sheet open flag, and the camera (position and look-at target). -/
structure ViewerState where
  selectedNode : Option SimNode
  isSheetOpen : Bool
  cameraPos : Rat × Rat × Rat
  cameraLookAt : Rat × Rat × Rat
deriving DecidableEq

/-- Handler `handleNodeClick` from `GraphVisualization.tsx` lines 228–244: ignore
the user node; otherwise select it, open the sheet, and aim the camera at
it from offset `distance = 40` using `distRatio = 1 + 40 / hypot(x,y,z)`. -/
def handleNodeClick (hypot3 : Rat → Rat → Rat → Rat)
    (st : ViewerState) (node : SimNode) : ViewerState :=
  if node.id = "user" then st
  else
    let distance : Rat := 40
    let distRatio : Rat := 1 + distance / hypot3 node.x node.y node.z
    { st with
        selectedNode := some node,
        isSheetOpen := true,
        cameraPos := (node.x * distRatio, node.y * distRatio, node.z * distRatio),
        cameraLookAt := (node.x, node.y, node.z) }

/-- Handler `handleNodeDrag` from `GraphVisualization.tsx` lines 211–221: pin the
user node back to the origin; leave every other node to the drag. -/
def handleNodeDrag (node : SimNode) : SimNode :=
  if node.name = "user" then
    { node with fx := some 0, fy := some 0, fz := some 0, x := 0, y := 0, z := 0 }
  else node

/-! ## Index page: reset and run start

From `src/pages/Index.tsx` (the `NetResearch` page with past-runs
sidebar).  `cvFile` is carried as the file name. -/

/-- The Index page state. -/
structure IndexState where
  cvFile : Option String
  cvId : Option String
  query : String
  maxNodes : String
  isSearching : Bool
  isComplete : Bool
  searchStarted : Bool
  graphData : Option GraphData
  runId : Option String
  reasoningSteps : List StepLog
  isUploadingCV : Bool
  userName : String
  hasCvLoaded : Bool
deriving DecidableEq

/-- Handler `handleReset` from `Index.tsx` lines 476–484 ("New Search"). -/
def handleReset (s : IndexState) : IndexState :=
  { s with
      searchStarted := false,
      isSearching := false,
      isComplete := false,
      query := "",
      graphData := none,
      runId := none,
      reasoningSteps := [] }

/-- JS `||`-coalescing of a nullable string to undefined:
`cvId || undefined` maps null and the empty string to undefined. -/
def jsStringOrUndefined : Option String → Option String
  | none => none
  | some s => if s = "" then none else some s

/-- JS `String.prototype.trim`: strip whitespace from both ends.
(Executable model; `Char.isWhitespace` stands in for the JS whitespace
class.) -/
def jsTrim (s : String) : String :=
  String.mk (((s.data.dropWhile Char.isWhitespace).reverse.dropWhile
      Char.isWhitespace).reverse)

/-- The `cv_id` argument `handleStartDiscovery` (lines 448–474 of
`Index.tsx`) passes to `startAgentRun`: `cvId || undefined`, but only when
the query is non-blank (`if (!query.trim()) return`). -/
def startRunCvId (s : IndexState) : Option (Option String) :=
  if jsTrim s.query = "" then none
  else some (jsStringOrUndefined s.cvId)

/-- Typing a new query into the search input (`setQuery`). -/
def setQuery (s : IndexState) (q : String) : IndexState :=
  { s with query := q }

/-- A poll result keeps the remembered last-active id of the console: its first
`in_progress` step, when there is one, carries exactly that id.  This is
the situation in which the auto-expand logic of `applyPollSteps` leaves
the expansion set alone. -/
def pollKeepsLastActive (last : Option String) (steps : List StepLog) : Prop :=
  ∀ a : StepLog,
    steps.find? (fun s => s.status = .in_progress) = some a →
    some a.step_id = last

instance (last : Option String) (steps : List StepLog) :
    Decidable (pollKeepsLastActive last steps) :=
  match hf : steps.find? (fun s => s.status = .in_progress) with
  | none => isTrue (by intro a ha; rw [hf] at ha; cases ha)
  | some b =>
      if hb : some b.step_id = last then
        isTrue (by intro a ha; rw [hf] at ha; cases ha; exact hb)
      else
        isFalse (fun h => hb (h b hf))

/-! ## Concrete inputs used by the witness theorems -/

/-- A done step, id "2". -/
def doneStep2 : StepLog :=
  { step_id := "2", step_type := .filters, message := "Applying search filters...",
    status := .done, timestamp := mockTimestamp }

/-- An in-progress step, id "3". -/
def activeStep3 : StepLog :=
  { step_id := "3", step_type := .search, message := "Searching for relevant papers...",
    status := .in_progress, timestamp := mockTimestamp }

/-- A polled list in which step "3" is the only in-progress step. -/
def pollWithActive3 : List StepLog := [doneStep2, activeStep3]

/-- A fresh console (as right after mount). -/
def freshConsole : ConsoleState :=
  { steps := [], expandedSteps := ∅, lastActiveStepId := none, isAutoExpanded := false }

/-- A console that last auto-expanded step "3". -/
def consoleAfterAuto3 : ConsoleState :=
  { steps := pollWithActive3, expandedSteps := {"3"},
    lastActiveStepId := some "3", isAutoExpanded := true }

/-- The completion scenario of the spec: the initial poll and three interval
polls return `running`, the next returns `completed` with graph data, then
the grace timer fires. -/
def c2Scenario : List Event :=
  [ .resolve (getAgentStatus "r1" 500), .tick,
    .resolve (getAgentStatus "r1" 1500), .tick,
    .resolve (getAgentStatus "r1" 2500), .tick,
    .resolve (getAgentStatus "r1" 9100), .fireGrace ]

/-- Two polls in flight at once (the initial `poll()` plus one tick), both
resolving `completed` with graph data, then both grace timers firing. -/
def c2DoubleTrace : List Event :=
  [ .tick,
    .resolve (getAgentStatus "rA" 9500),
    .resolve (getAgentStatus "rA" 10000),
    .fireGrace, .fireGrace ]

/-- A completed response is processed, then the component unmounts
(cleanup), then the already-scheduled grace timer fires. -/
def c3Trace : List Event :=
  [ .resolve (getAgentStatus "rB" 9500), .cleanup, .fireGrace ]

/-- An interval tick and two failed fetches. -/
def c7SampleTrace : List Event := [.reject, .tick, .reject]

/-- A typical non-anchor professor node mid-layout. -/
def sampleAnchorNode : SimNode :=
  { id := "user", name := "user", x := 5, y := 6, z := 7 }

/-- A viewer state with a node already selected and the camera moved. -/
def sampleViewerState : ViewerState :=
  { selectedNode := none, isSheetOpen := false,
    cameraPos := (0, 0, 200), cameraLookAt := (0, 0, 0) }

/-- A stand-in for `Math.hypot` (its value never matters to the claims). -/
def sampleHypot : Rat → Rat → Rat → Rat := fun _ _ _ => 1

/-- An Index page mid-run, with an uploaded CV and a saved name. -/
def sampleIndexState : IndexState :=
  { cvFile := some "resume.pdf", cvId := some "cv-123",
    query := "diffusion models", maxNodes := "20",
    isSearching := false, isComplete := true, searchStarted := true,
    graphData := some mockGraphData, runId := some "r1",
    reasoningSteps := pollWithActive3,
    isUploadingCV := false, userName := "Ada", hasCvLoaded := true }

end NetResearch

namespace NetResearch

/-! ## Helper lemmas -/

/-- Lemma: `applyPollSteps` always stores the polled list in `steps`. -/
theorem applyPollSteps_steps (c : ConsoleState) (steps : List StepLog) :
    (applyPollSteps c steps).steps = steps := by
  unfold applyPollSteps
  cases steps.find? (fun s => s.status = .in_progress) <;> dsimp <;> split <;> rfl

/-- If `a` is an in-progress member of a list holding at most one
in-progress step, the `find` of the console returns `a` itself. -/
theorem find?_inProgress_eq (steps : List StepLog) (a : StepLog)
    (ha : a ∈ steps) (hstat : a.status = .in_progress)
    (huniq : countInProgress steps ≤ 1) :
    steps.find? (fun s => s.status = .in_progress) = some a := by
  induction steps with
  | nil => cases ha
  | cons b rest ih =>
      by_cases hb : b.status = .in_progress
      · have hfind : (b :: rest).find? (fun s => s.status = .in_progress) = some b := by
          simp [List.find?, hb]
        rcases List.mem_cons.mp ha with rfl | hmem
        · exact hfind
        · exfalso
          have h1 : a ∈ rest.filter (fun s => s.status = .in_progress) :=
            List.mem_filter.mpr ⟨hmem, by simp [hstat]⟩
          have h2 : 1 ≤ (rest.filter (fun s => s.status = .in_progress)).length :=
            List.length_pos.mpr (List.ne_nil_of_mem h1)
          have h3 : countInProgress (b :: rest) =
              1 + countInProgress rest := by
            simp [countInProgress, List.filter, hb, Nat.add_comm]
          have h4 : countInProgress rest =
              (rest.filter (fun s => s.status = .in_progress)).length := rfl
          omega
      · have hmem : a ∈ rest := by
          rcases List.mem_cons.mp ha with rfl | hmem
          · exact absurd hstat hb
          · exact hmem
        have hcount : countInProgress (b :: rest) = countInProgress rest := by
          simp [countInProgress, List.filter, hb]
        have hfind : (b :: rest).find? (fun s => s.status = .in_progress) =
            rest.find? (fun s => s.status = .in_progress) := by
          simp [List.find?, hb]
        rw [hfind]
        exact ih hmem (hcount ▸ huniq)

/-- When the auto flag of the console is off and the first in-progress
step (if any) carries the remembered id, `applyPollSteps` only stores the
new step list. -/
theorem applyPollSteps_keep (d : ConsoleState) (steps : List StepLog)
    (hauto : d.isAutoExpanded = false)
    (hkeep : pollKeepsLastActive d.lastActiveStepId steps) :
    applyPollSteps d steps = { d with steps := steps } := by
  unfold applyPollSteps
  cases hf : steps.find? (fun s => s.status = .in_progress) with
  | none => simp [hauto]
  | some a =>
      have hsame := hkeep a hf
      simp [hsame]

/-- Folding such polls over a console with the auto flag off moves neither
the expansion set, the auto flag, nor the remembered id. -/
theorem foldl_applyPollSteps_keep (polls : List (List StepLog)) (d : ConsoleState)
    (hauto : d.isAutoExpanded = false)
    (h : ∀ steps ∈ polls, pollKeepsLastActive d.lastActiveStepId steps) :
    (polls.foldl applyPollSteps d).expandedSteps = d.expandedSteps ∧
    (polls.foldl applyPollSteps d).isAutoExpanded = false ∧
    (polls.foldl applyPollSteps d).lastActiveStepId = d.lastActiveStepId := by
  induction polls generalizing d with
  | nil => exact ⟨rfl, hauto, rfl⟩
  | cons p rest ih =>
      rw [List.foldl_cons, applyPollSteps_keep d p hauto (h p (by simp))]
      exact ih { d with steps := p } hauto (fun s hs => h s (by simp [hs]))

/-- Lemma: `handleResolve` always runs the console update of `poll` on the
steps of the response. -/
theorem handleResolve_console (st : SysState) (r : AgentStatusResponse) :
    (handleResolve st r).console = applyPollSteps st.console r.steps := by
  unfold handleResolve
  rcases r with ⟨rid, rstatus, rprog, rsteps, rgraph⟩
  cases rstatus <;> cases rgraph <;> rfl

/-- Lemma: `handleResolve` keeps the interval active unless the response is
`completed` with graph data present. -/
theorem handleResolve_intervalActive (st : SysState) (r : AgentStatusResponse)
    (hr : ¬(r.status = .completed ∧ r.graph_data.isSome)) :
    (handleResolve st r).intervalActive = st.intervalActive := by
  unfold handleResolve
  rcases r with ⟨rid, rstatus, rprog, rsteps, rgraph⟩
  cases rstatus <;> cases rgraph <;> first
    | rfl
    | exact absurd ⟨rfl, rfl⟩ hr

/-- Ticks, rejected fetches and non-terminal responses never deactivate
the interval. -/
theorem run_intervalActive_of_nonterminal (tr : List Event) :
    ∀ st : SysState,
      (∀ e ∈ tr, e = Event.reject ∨ e = Event.tick ∨
          ∃ r, e = Event.resolve r ∧ ¬(r.status = .completed ∧ r.graph_data.isSome)) →
      st.intervalActive = true → (run st tr).intervalActive = true := by
  induction tr with
  | nil => exact fun st _ hact => hact
  | cons e rest ih =>
      intro st htr hact
      have hrest := fun e' h' => htr e' (List.mem_cons_of_mem _ h')
      have he := htr e (List.mem_cons_self _ _)
      rcases he with rfl | rfl | ⟨r, rfl, hr⟩
      · exact ih (stepEvent st Event.reject) hrest hact
      · exact ih (stepEvent st Event.tick) hrest hact
      · exact ih (stepEvent st (Event.resolve r)) hrest
          (by rw [show stepEvent st (Event.resolve r) = handleResolve st r from rfl,
                  handleResolve_intervalActive st r hr]; exact hact)

/-- Lemma: `handleResolve` never delivers by itself. -/
theorem handleResolve_deliveries (st : SysState) (r : AgentStatusResponse) :
    (handleResolve st r).deliveries = st.deliveries := by
  unfold handleResolve
  rcases r with ⟨rid, rstatus, rprog, rsteps, rgraph⟩
  cases rstatus <;> cases rgraph <;> rfl

/-- Lemma: `handleResolve` schedules one grace timer exactly on a
completed-with-graph response. -/
theorem handleResolve_graceTimers_length (st : SysState) (r : AgentStatusResponse) :
    (handleResolve st r).graceTimers.length =
      st.graceTimers.length +
        (if r.status = .completed ∧ r.graph_data.isSome then 1 else 0) := by
  unfold handleResolve
  rcases r with ⟨rid, rstatus, rprog, rsteps, rgraph⟩
  cases rstatus <;> cases rgraph <;> simp

/-- Deliveries made plus grace timers still pending never exceed the
completed-with-graph responses processed so far. -/
theorem deliveries_add_timers_bound (tr : List Event) :
    ∀ st : SysState,
      (run st tr).deliveries.length + (run st tr).graceTimers.length ≤
        st.deliveries.length + st.graceTimers.length + countCompleted tr := by
  induction tr with
  | nil => intro st; simp [run, countCompleted]
  | cons e rest ih =>
      intro st
      have hrun : run st (e :: rest) = run (stepEvent st e) rest := rfl
      rw [hrun]
      cases e with
      | tick => simpa [stepEvent, countCompleted] using ih (stepEvent st Event.tick)
      | reject => simpa [stepEvent, countCompleted] using ih (stepEvent st Event.reject)
      | toggle stepId =>
          simpa [stepEvent, countCompleted] using ih (stepEvent st (Event.toggle stepId))
      | cleanup => simpa [stepEvent, countCompleted] using ih (stepEvent st Event.cleanup)
      | fireGrace =>
          have hc : countCompleted (Event.fireGrace :: rest) = countCompleted rest := rfl
          rw [hc]
          cases hg : st.graceTimers with
          | nil =>
              have hstep : stepEvent st Event.fireGrace = st := by
                simp [stepEvent, hg]
              rw [hstep]
              simpa [hg] using ih st
          | cons d ds =>
              have hstep : stepEvent st Event.fireGrace =
                  { st with graceTimers := ds, deliveries := st.deliveries ++ [d] } := by
                simp [stepEvent, hg]
              rw [hstep]
              have h := ih { st with graceTimers := ds, deliveries := st.deliveries ++ [d] }
              simp only [List.length_append, List.length_singleton, List.length_cons,
                List.length_nil] at h ⊢
              omega
      | resolve r =>
          have hc : countCompleted (Event.resolve r :: rest) =
              (if r.status = .completed ∧ r.graph_data.isSome then 1 else 0) +
                countCompleted rest := rfl
          rw [hc]
          have hs : stepEvent st (Event.resolve r) = handleResolve st r := rfl
          rw [hs]
          have h := ih (handleResolve st r)
          rw [handleResolve_deliveries, handleResolve_graceTimers_length] at h
          omega

/-! ## Claim theorems -/

/-- C1: on a polled step list holding (as §8 of the spec guarantees) at
most one in-progress step: if an in-progress step is present whose id
differs from the remembered last auto-expanded id, the expanded set
becomes exactly that singleton and the id is remembered with the auto
flag set; and if no step is in progress while the previous expansion was
automatic, the expanded set becomes empty. -/
theorem c1_auto_expand (c : ConsoleState) (steps : List StepLog) :
    (∀ a : StepLog, a ∈ steps → a.status = .in_progress →
        countInProgress steps ≤ 1 →
        some a.step_id ≠ c.lastActiveStepId →
        (applyPollSteps c steps).expandedSteps = {a.step_id} ∧
        (applyPollSteps c steps).lastActiveStepId = some a.step_id ∧
        (applyPollSteps c steps).isAutoExpanded = true) ∧
    ((∀ a ∈ steps, a.status ≠ .in_progress) → c.isAutoExpanded = true →
        (applyPollSteps c steps).expandedSteps = ∅ ∧
        (applyPollSteps c steps).isAutoExpanded = false) := by
  constructor
  · intro a ha hstat huniq hdiff
    have hf := find?_inProgress_eq steps a ha hstat huniq
    simp only [applyPollSteps, hf]
    simp [hdiff]
  · intro hnone hauto
    have hf : steps.find? (fun s => s.status = .in_progress) = none :=
      List.find?_eq_none.mpr (fun x hx => by simp [hnone x hx])
    simp only [applyPollSteps, hf]
    simp [hauto]

/-- C1 (witness): a fresh console polling a list whose only in-progress
step is step "3". -/
theorem c1_auto_expand_witness :
    (activeStep3 ∈ pollWithActive3 ∧ activeStep3.status = .in_progress ∧
     countInProgress pollWithActive3 ≤ 1 ∧
     some activeStep3.step_id ≠ freshConsole.lastActiveStepId) ∧
    (applyPollSteps freshConsole pollWithActive3).expandedSteps = {"3"} ∧
    (applyPollSteps freshConsole pollWithActive3).lastActiveStepId = some "3" ∧
    (applyPollSteps freshConsole pollWithActive3).isAutoExpanded = true :=
  ⟨⟨by decide, by decide, by decide, by decide⟩,
   ((c1_auto_expand freshConsole pollWithActive3).1 activeStep3
      (by decide) (by decide) (by decide) (by decide)).1,
   ((c1_auto_expand freshConsole pollWithActive3).1 activeStep3
      (by decide) (by decide) (by decide) (by decide)).2.1,
   ((c1_auto_expand freshConsole pollWithActive3).1 activeStep3
      (by decide) (by decide) (by decide) (by decide)).2.2⟩

/-- C4: after a manual toggle the auto flag is off, and any sequence of
subsequent polls in which the first in-progress step (when present) still
carries the remembered last auto-expanded id leaves the manual expansion
set, the auto flag, and the remembered id untouched — in particular,
repeated polls returning the same in-progress step do not overwrite the
manual expansion set, and the automatic collapse of rule 2 never fires. -/
theorem c4_manual_override (c : ConsoleState) (stepId : String)
    (polls : List (List StepLog))
    (h : ∀ steps ∈ polls, pollKeepsLastActive c.lastActiveStepId steps) :
    (polls.foldl applyPollSteps (toggleExpand c stepId)).expandedSteps
        = (toggleExpand c stepId).expandedSteps ∧
    (polls.foldl applyPollSteps (toggleExpand c stepId)).isAutoExpanded = false ∧
    (polls.foldl applyPollSteps (toggleExpand c stepId)).lastActiveStepId
        = c.lastActiveStepId :=
  foldl_applyPollSteps_keep polls (toggleExpand c stepId) rfl h

/-- C4 (witness): a console that auto-expanded step "3", a manual toggle
of step "2", then two polls still reporting step "3" in progress. -/
theorem c4_manual_override_witness :
    (∀ steps ∈ [pollWithActive3, pollWithActive3],
        pollKeepsLastActive consoleAfterAuto3.lastActiveStepId steps) ∧
    ([pollWithActive3, pollWithActive3].foldl applyPollSteps
        (toggleExpand consoleAfterAuto3 "2")).expandedSteps = {"2", "3"} ∧
    ([pollWithActive3, pollWithActive3].foldl applyPollSteps
        (toggleExpand consoleAfterAuto3 "2")).isAutoExpanded = false :=
  ⟨by decide,
   (c4_manual_override consoleAfterAuto3 "2" [pollWithActive3, pollWithActive3]
      (by decide)).1.trans (by decide),
   (c4_manual_override consoleAfterAuto3 "2" [pollWithActive3, pollWithActive3]
      (by decide)).2.1⟩

/-- C7: a rejected fetch is swallowed — it changes no console state, no
timers, no deliveries, and leaves the interval active; across any sequence
of ticks, failed fetches and non-terminal successful responses the
interval stays active (the loop continues at its fixed `pollIntervalMs`
cadence of 1000 ms), and a later successful response still updates the
steps to the fetched list. -/
theorem c7_errors_swallowed (st : SysState) (tr : List Event)
    (htr : ∀ e ∈ tr, e = Event.reject ∨ e = Event.tick ∨
        ∃ r, e = Event.resolve r ∧ ¬(r.status = .completed ∧ r.graph_data.isSome))
    (hact : st.intervalActive = true) :
    (stepEvent st Event.reject).console = st.console ∧
    (stepEvent st Event.reject).intervalActive = st.intervalActive ∧
    (stepEvent st Event.reject).deliveries = st.deliveries ∧
    (stepEvent st Event.reject).graceTimers = st.graceTimers ∧
    (run st tr).intervalActive = true ∧
    (∀ r : AgentStatusResponse,
        (stepEvent (run st tr) (Event.resolve r)).console.steps = r.steps) ∧
    pollIntervalMs = 1000 := by
  refine ⟨rfl, rfl, rfl, rfl, ?_, ?_, rfl⟩
  · exact run_intervalActive_of_nonterminal tr st htr hact
  · intro r
    rw [show stepEvent (run st tr) (Event.resolve r) = handleResolve (run st tr) r from rfl,
        handleResolve_console, applyPollSteps_steps]

/-- C7 (witness): two failed fetches around an interval tick on the
freshly mounted console. -/
theorem c7_errors_swallowed_witness :
    initState.intervalActive = true ∧
    (run initState c7SampleTrace).intervalActive = true := by
  have hyp : ∀ e ∈ c7SampleTrace, e = Event.reject ∨ e = Event.tick ∨
      ∃ r, e = Event.resolve r ∧ ¬(r.status = .completed ∧ r.graph_data.isSome) := by
    intro e he
    fin_cases he
    · exact Or.inl rfl
    · exact Or.inr (Or.inl rfl)
    · exact Or.inl rfl
  exact ⟨rfl, (c7_errors_swallowed initState c7SampleTrace hyp rfl).2.2.2.2.1⟩

/-- C2 (counterexample): the claim promises exactly one completion
delivery even when several polls are in flight.  With the initial `poll()`
and one interval tick both in flight and both resolving `completed` with
graph data, each schedules its own grace timer and the callback fires
twice. -/
theorem c2_counterexample :
    validTrace initState c2DoubleTrace = true ∧
    (run initState c2DoubleTrace).deliveries.length = 2 ∧
    (run initState c2DoubleTrace).deliveries.length ≠ 1 :=
  ⟨rfl, rfl, by decide⟩

/-- C2 (amended): every processed completed-with-graph response stops the
interval and schedules one grace delivery, and deliveries never exceed the
completed-with-graph responses processed; in the sequential scenario of
the spec — initial poll plus three ticks returning `running`, then a
`completed` response with graph data, then the grace timer — exactly one
delivery fires, carrying the graph and steps of that response, and no further
tick is possible. -/
theorem c2_amended_completion :
    (∀ tr : List Event, (run initState tr).deliveries.length ≤ countCompleted tr) ∧
    validTrace initState c2Scenario = true ∧
    countCompleted c2Scenario = 1 ∧
    (run initState c2Scenario).deliveries =
      [⟨mockGraphData, (getAgentStatus "r1" 9100).steps⟩] ∧
    (run initState c2Scenario).intervalActive = false ∧
    enabledB (run initState c2Scenario) Event.tick = false := by
  refine ⟨?_, rfl, rfl, rfl, rfl, rfl⟩
  intro tr
  have h := deliveries_add_timers_bound tr initState
  have e1 : initState.deliveries.length = 0 := rfl
  have e2 : initState.graceTimers.length = 0 := rfl
  omega

/-- C3 (code bug): stopping is idempotent, but after the cleanup has run a
completion delivery still fires: the grace timer scheduled by an earlier
completed response is not cancelled by the cleanup (which only clears the
interval) and delivers after teardown; likewise an in-flight fetch
resolving after cleanup still updates the steps state. -/
theorem c3_delivery_after_cleanup :
    (∀ st : SysState, stepEvent (stepEvent st Event.cleanup) Event.cleanup
        = stepEvent st Event.cleanup) ∧
    validTrace initState c3Trace = true ∧
    (run initState [Event.resolve (getAgentStatus "rB" 9500), Event.cleanup]).cleanedUp
        = true ∧
    enabledB (run initState [Event.resolve (getAgentStatus "rB" 9500), Event.cleanup])
        Event.fireGrace = true ∧
    (run initState c3Trace).deliveries.length = 1 ∧
    validTrace initState [Event.cleanup, Event.resolve (getAgentStatus "rB" 500)] = true ∧
    (run initState [Event.cleanup, Event.resolve (getAgentStatus "rB" 500)]).console.steps
        = (getAgentStatus "rB" 500).steps :=
  ⟨fun _ => rfl, rfl, rfl, rfl, rfl, rfl, rfl⟩

/-- C5 (counterexample): the claim says the progress of every snapshot equals
done-steps/total-steps times 100 rounded; at elapsed 0 ms the snapshot has
0 of 6 steps done, so the formula gives 0, but `getAgentStatus` reports
the hardcoded progress 10. -/
theorem c5_counterexample :
    (getAgentStatus "r1" 0).progress = 10 ∧
    countDone (getAgentStatus "r1" 0).steps = 0 ∧
    (getAgentStatus "r1" 0).steps.length = 6 ∧
    specProgress 0 6 = 0 ∧
    (getAgentStatus "r1" 0).progress ≠
      specProgress (countDone (getAgentStatus "r1" 0).steps)
        (getAgentStatus "r1" 0).steps.length := by
  refine ⟨rfl, rfl, rfl, rfl, ?_⟩
  decide

/-- C5 (amended): the reported progress is a hardcoded per-branch value,
not the done/total formula in general; in the branch where 3 of the 6
steps are done (elapsed in [3000, 5000) ms) the snapshot reports progress
50, which does equal done-steps/total-steps times 100 rounded. -/
theorem c5_amended (runId : String) (elapsed : Nat)
    (h1 : 3000 ≤ elapsed) (h2 : elapsed < 5000) :
    countDone (getAgentStatus runId elapsed).steps = 3 ∧
    (getAgentStatus runId elapsed).steps.length = 6 ∧
    (getAgentStatus runId elapsed).progress = 50 ∧
    (getAgentStatus runId elapsed).progress =
      specProgress (countDone (getAgentStatus runId elapsed).steps)
        (getAgentStatus runId elapsed).steps.length := by
  have hn2 : ¬ elapsed < 2000 := by omega
  have hn3 : ¬ elapsed < 3000 := by omega
  unfold getAgentStatus
  rw [if_neg hn2, if_neg hn3, if_pos h2]
  dsimp only
  decide

/-- C5 (witness): the amended theorem at elapsed 3500 ms. -/
theorem c5_amended_witness :
    (3000 ≤ 3500 ∧ 3500 < 5000) ∧
    (countDone (getAgentStatus "r1" 3500).steps = 3 ∧
     (getAgentStatus "r1" 3500).steps.length = 6 ∧
     (getAgentStatus "r1" 3500).progress = 50 ∧
     (getAgentStatus "r1" 3500).progress =
       specProgress (countDone (getAgentStatus "r1" 3500).steps)
         (getAgentStatus "r1" 3500).steps.length) :=
  ⟨⟨by omega, by omega⟩, c5_amended "r1" 3500 (by omega) (by omega)⟩

/-- C6: in every elapsed-time branch of the status endpoint, for every run
id, at most one step of the returned list is `in_progress`. -/
theorem c6_at_most_one_in_progress (runId : String) (elapsed : Nat) :
    countInProgress (getAgentStatus runId elapsed).steps ≤ 1 := by
  unfold getAgentStatus
  split_ifs <;> (dsimp only; decide)

/-- C8: clicking the user-anchor node changes nothing — selected node,
sheet state and camera are untouched — and a drag targeting the anchor
pins its coordinates (and fix fields) to the origin. -/
theorem c8_anchor_click_drag (hypot3 : Rat → Rat → Rat → Rat)
    (st : ViewerState) (node : SimNode)
    (hid : node.id = "user") (hname : node.name = "user") :
    handleNodeClick hypot3 st node = st ∧
    (handleNodeDrag node).x = 0 ∧
    (handleNodeDrag node).y = 0 ∧
    (handleNodeDrag node).z = 0 ∧
    (handleNodeDrag node).fx = some 0 ∧
    (handleNodeDrag node).fy = some 0 ∧
    (handleNodeDrag node).fz = some 0 := by
  refine ⟨?_, ?_, ?_, ?_, ?_, ?_, ?_⟩ <;>
    simp [handleNodeClick, handleNodeDrag, hid, hname]

/-- C8 (witness): the theorem at the concrete anchor node. -/
theorem c8_anchor_click_drag_witness :
    (sampleAnchorNode.id = "user" ∧ sampleAnchorNode.name = "user") ∧
    handleNodeClick sampleHypot sampleViewerState sampleAnchorNode = sampleViewerState ∧
    (handleNodeDrag sampleAnchorNode).x = 0 :=
  ⟨⟨rfl, rfl⟩,
   (c8_anchor_click_drag sampleHypot sampleViewerState sampleAnchorNode rfl rfl).1,
   (c8_anchor_click_drag sampleHypot sampleViewerState sampleAnchorNode rfl rfl).2.1⟩

/-- C9 (counterexample): the claim says a plain-string institution passes
through unchanged, but the empty string is falsy in the guard, so
it normalizes to `null` rather than to itself. -/
theorem c9_counterexample :
    institutionName (InstitutionVal.str "") = none ∧
    institutionName (InstitutionVal.str "") ≠ some "" := by
  refine ⟨rfl, ?_⟩
  decide

/-- C9 (amended): an object institution with a non-empty name normalizes
to its name (an empty name gives "Unknown"); a non-empty plain string
passes through unchanged (the empty string normalizes to null); and the
normalization is idempotent on its string outputs: re-normalizing any
string it produces yields that same string. -/
theorem c9_amended :
    (∀ id name : String, name ≠ "" →
        institutionName (.obj id name) = some name) ∧
    (∀ s : String, s ≠ "" → institutionName (.str s) = some s) ∧
    (∀ v : InstitutionVal, ∀ s : String,
        institutionName v = some s → institutionName (.str s) = some s) := by
  refine ⟨?_, ?_, ?_⟩
  · intro id name h
    simp [institutionName, h]
  · intro s h
    simp [institutionName, h]
  · intro v s h
    cases v with
    | null => simp [institutionName] at h
    | str t =>
        by_cases ht : t = "" <;> simp [institutionName, ht] at h
        subst h
        simp [institutionName, ht]
    | obj i n =>
        simp [institutionName] at h
        by_cases hn : n = "" <;> simp [hn] at h <;> subst h <;>
          simp [institutionName, hn]

/-- C9 (witness): the amended theorem at `{id:"i1", name:"MIT"}`, at the
plain string "MIT", and re-normalizing the produced "MIT". -/
theorem c9_amended_witness :
    ("MIT" ≠ "" ∧ institutionName (InstitutionVal.obj "i1" "MIT") = some "MIT") ∧
    institutionName (InstitutionVal.str "MIT") = some "MIT" :=
  ⟨⟨by decide, c9_amended.1 "i1" "MIT" (by decide)⟩,
   c9_amended.2.2 (InstitutionVal.obj "i1" "MIT") "MIT"
     (c9_amended.1 "i1" "MIT" (by decide))⟩

/-- C10: the New Search reset clears only the in-memory data of the run
(query, graph data, run id, reasoning steps, searching/complete/started
flags) and leaves the CV id, the CV file marker and the saved user name
unchanged; a discovery started afterwards with any non-blank query still
passes the previously uploaded cv_id to `startAgentRun`. -/
theorem c10_reset_frame (s : IndexState) (q : String) (hq : jsTrim q ≠ "") :
    (handleReset s).cvId = s.cvId ∧
    (handleReset s).cvFile = s.cvFile ∧
    (handleReset s).userName = s.userName ∧
    (handleReset s).hasCvLoaded = s.hasCvLoaded ∧
    (handleReset s).query = "" ∧
    (handleReset s).graphData = none ∧
    (handleReset s).runId = none ∧
    (handleReset s).reasoningSteps = [] ∧
    (handleReset s).isSearching = false ∧
    (handleReset s).isComplete = false ∧
    (handleReset s).searchStarted = false ∧
    startRunCvId (setQuery (handleReset s) q) = some (jsStringOrUndefined s.cvId) := by
  refine ⟨rfl, rfl, rfl, rfl, rfl, rfl, rfl, rfl, rfl, rfl, rfl, ?_⟩
  simp [startRunCvId, setQuery, handleReset, hq]

/-- C10 (witness): the theorem at a state carrying cv-123 and a new
query. -/
theorem c10_reset_frame_witness :
    (jsTrim "quantum sensing" ≠ "") ∧
    (handleReset sampleIndexState).cvId = some "cv-123" ∧
    startRunCvId (setQuery (handleReset sampleIndexState) "quantum sensing") =
      some (some "cv-123") :=
  ⟨by decide,
   (c10_reset_frame sampleIndexState "quantum sensing" (by decide)).1,
   (c10_reset_frame sampleIndexState "quantum sensing" (by decide)).2.2.2.2.2.2.2.2.2.2.2⟩

end NetResearch
